/-
Verification of the wellavy-extract format-classification and pattern-based
extraction pipeline.

The Python sources under `src/` are embedded shallowly: each Lean definition
below mirrors one Python function (module and function names are kept).
Python strings are Lean `String`s, Python `None`/`str` optionals are
`Option String`, Python numeric values (floats) are modelled as `ℚ`, and
fallible pipeline steps return `Except`.  Regular-expression searches whose
exact automaton is irrelevant to the claims (they are short-circuited away
by substring guards in every theorem below) are abstracted as explicit
hook parameters; everything else, including the anchored regexes used by
the per-line parsers, is translated directly from the pattern strings.
-/
import Mathlib

namespace Py

/-! ## Python string primitives

Direct models of the Python `str` operations the pipeline uses.  Inputs in
this repository are ASCII report text, so ASCII case folding and the ASCII
whitespace class model `str.lower`, `str.upper`, `str.strip`, `str.split`
and `str.isalpha` faithfully on every string that reaches them. -/

/-- The Python whitespace class used by `str.strip` / `str.split` / `\s`. -/
def isSpace (c : Char) : Bool :=
  c = ' ' || c = '\t' || c = '\n' || c = '\x0b' || c = '\x0c' || c = '\r'

private def listContains (sub : List Char) : List Char → Bool
  | [] => sub.isEmpty
  | l@(_ :: rest) => sub.isPrefixOf l || listContains sub rest

/-- Python `sub in s` (substring containment). -/
def isIn (sub s : String) : Bool :=
  listContains sub.data s.data

/-- Python `s.lower()` (ASCII). -/
def lower (s : String) : String :=
  ⟨s.data.map Char.toLower⟩

/-- Python `s.upper()` (ASCII). -/
def upper (s : String) : String :=
  ⟨s.data.map Char.toUpper⟩

/-- Python `s.strip()` with no argument. -/
def strip (s : String) : String :=
  ⟨((s.data.dropWhile isSpace).reverse.dropWhile isSpace).reverse⟩

/-- Python `s.startswith(p)`. -/
def startswith (s p : String) : Bool :=
  p.data.isPrefixOf s.data

/-- Python `s.endswith(p)`. -/
def endswith (s p : String) : Bool :=
  p.data.isSuffixOf s.data

/-- Python `s.replace(old, new)` for a single-character `old` removed or
replaced; the pipeline only replaces single characters. -/
def replaceChar (s : String) (old : Char) (new : String) : String :=
  ⟨(s.data.map (fun c => if c = old then new.data else [c])).flatten⟩

private def splitSepAux (sep : Char) : List Char → List Char → List String
  | [], acc => [⟨acc.reverse⟩]
  | c :: rest, acc =>
    if c = sep then ⟨acc.reverse⟩ :: splitSepAux sep rest []
    else splitSepAux sep rest (c :: acc)

/-- Python `s.split(sep)` for a one-character separator (keeps empty parts). -/
def splitSep (s : String) (sep : Char) : List String :=
  splitSepAux sep s.data []

private def splitWSAux : List Char → List Char → List String
  | [], acc => if acc.isEmpty then [] else [⟨acc.reverse⟩]
  | c :: rest, acc =>
    if isSpace c then
      if acc.isEmpty then splitWSAux rest []
      else ⟨acc.reverse⟩ :: splitWSAux rest []
    else splitWSAux rest (c :: acc)

/-- Python `s.split()` with no argument (split on whitespace runs,
dropping empty fields). -/
def splitWS (s : String) : List String :=
  splitWSAux s.data []

/-- Python `s.isalpha()` (ASCII letters). -/
def isalpha (s : String) : Bool :=
  !s.data.isEmpty && s.data.all Char.isAlpha

/-- Numeric value of a digit list (most significant first). -/
def digitsToNat (ds : List Char) : ℕ :=
  ds.foldl (fun a c => 10 * a + (c.toNat - '0'.toNat)) 0

/-- The exact rational `m / 10 ^ shift` scaled by `10 ^ exp10` (`exp10` is
the signed decimal exponent), assembled with `mkRat` so that the value
computes by kernel reduction. -/
def decimalValue (m : ℤ) (shift : ℕ) (exp10 : ℤ) : ℚ :=
  let t : ℤ := exp10 - (shift : ℤ)
  if 0 ≤ t then mkRat (m * 10 ^ t.toNat) 1
  else mkRat m (10 ^ (-t).toNat)

/-- Python `float(s)` on the finite decimal literals this pipeline feeds it
(optional sign, digits with optional fraction, optional exponent), returning
the exact value as a rational.  Strings that do not have this shape — the
non-numeric candidate values rejected by the validators — yield `none`. -/
def float (s : String) : Option ℚ :=
  let cs := (strip s).data
  let (sign, cs) : ℤ × List Char :=
    match cs with
    | '-' :: r => (-1, r)
    | '+' :: r => (1, r)
    | r => (1, r)
  let ip := cs.takeWhile Char.isDigit
  let cs := cs.drop ip.length
  let (fp, cs) : List Char × List Char :=
    match cs with
    | '.' :: r => (r.takeWhile Char.isDigit, r.drop (r.takeWhile Char.isDigit).length)
    | r => ([], r)
  if ip.isEmpty && fp.isEmpty then none
  else
    let m : ℤ := sign * (digitsToNat (ip ++ fp) : ℤ)
    match cs with
    | [] => some (decimalValue m fp.length 0)
    | e :: r =>
      if e = 'e' || e = 'E' then
        let (esign, r) : Bool × List Char :=
          match r with
          | '-' :: r2 => (true, r2)
          | '+' :: r2 => (false, r2)
          | r2 => (false, r2)
        let eds := r.takeWhile Char.isDigit
        if eds.isEmpty || !(r.drop eds.length).isEmpty then none
        else
          let ev : ℤ := (digitsToNat eds : ℤ)
          some (decimalValue m fp.length (if esign then -ev else ev))
      else none

/-- The match of the anchored regex fragment `[0-9]+\.?[0-9]*` at the head of
`cs`: the digit run, an optional dot, a further digit run; returns the matched
text and the remaining characters.  The fragment is followed in every source
pattern either by end-of-pattern or by a class disjoint from `[0-9.]`, so
maximal munch is exact. -/
def numToken (cs : List Char) : Option (String × List Char) :=
  let a := cs.takeWhile Char.isDigit
  if a.isEmpty then none
  else
    match cs.drop a.length with
    | '.' :: r =>
      let b := r.takeWhile Char.isDigit
      some (⟨a ++ '.' :: b⟩, r.drop b.length)
    | r => some (⟨a⟩, r)

end Py

namespace Wellavy

/-! ## Data model

Python result tuples are 2-tuples `(marker, value)` or 4-tuples
`(marker, value, min_range, max_range)` depending on `include_ranges`;
`Row` mirrors exactly that arity split.  Inside a 4-tuple a range field is a
string or Python `None`, modelled as `Option String`. -/

inductive Row where
  | pair (marker value : String)
  | quad (marker value : String) (min_range max_range : Option String)
  deriving DecidableEq, Repr

def Row.marker : Row → String
  | .pair m _ => m
  | .quad m _ _ _ => m

def Row.value : Row → String
  | .pair _ v => v
  | .quad _ v _ _ => v

/-- The deduplication key used by every `_remove_duplicates*` helper:
`(marker.lower(), value)`. -/
def Row.key (r : Row) : String × String :=
  (Py.lower r.marker, r.value)

end Wellavy

namespace Wellavy

/-! ## `extractors/base_extractor.py` — shared helpers -/

namespace BaseExtractor

def removeDuplicatesAux (seen : List (String × String)) : List Row → List Row
  | [] => []
  | r :: rs =>
    if r.key ∈ seen then removeDuplicatesAux seen rs
    else r :: removeDuplicatesAux (r.key :: seen) rs

/-- `BaseExtractor._remove_duplicates_preserve_order` (base_extractor.py:82-94):
walks the result list keeping the first occurrence of each
`(marker.lower(), value)` key.  `LabReportExtractor._remove_duplicates_preserve_order`
(pdf_to_csv.py:448-457) is the same loop restricted to 2-tuples, and
`_remove_duplicates` (base_extractor.py:96-108) is textually identical. -/
def remove_duplicates_preserve_order (results : List Row) : List Row :=
  removeDuplicatesAux [] results

/-- Dash branch of `_parse_range` (base_extractor.py:128-139): a `min-max`
split whose two stripped parts must both parse with `float`, else the branch
falls through. -/
def parseRangeDash (t : String) : Option (String × String) :=
  if Py.isIn "-" t && !(Py.startswith t "-") then
    match Py.splitSep t '-' with
    | [a, b] =>
      let mn := Py.strip a
      let mx := Py.strip b
      if (Py.float mn).isSome && (Py.float mx).isSome then some (mn, mx) else none
    | _ => none
  else none

/-- Tilde branch of `_parse_range` (base_extractor.py:142-152). -/
def parseRangeTilde (t : String) : Option (String × String) :=
  if Py.isIn "~" t then
    match Py.splitSep t '~' with
    | [a, b] =>
      let mn := Py.strip a
      let mx := Py.strip b
      if (Py.float mn).isSome && (Py.float mx).isSome then some (mn, mx) else none
    | _ => none
  else none

/-- The number group of the four comparison-operator regexes: `\s*` then
`([0-9]+\.?[0-9]*)`; `re.match` is unanchored at the end, so trailing text is
allowed. -/
def cmpBound (r : List Char) : Option String :=
  match Py.numToken (r.dropWhile Py.isSpace) with
  | some (n, _) => some n
  | none => none

/-- Regex `^[<≤]\s*([0-9]+\.?[0-9]*)` (base_extractor.py:155). -/
def ltBound (t : String) : Option String :=
  match t.data with
  | c :: r => if c = '<' || c = '≤' then cmpBound r else none
  | [] => none

/-- Regex `^[>≥]\s*([0-9]+\.?[0-9]*)` (base_extractor.py:160). -/
def gtBound (t : String) : Option String :=
  match t.data with
  | c :: r => if c = '>' || c = '≥' then cmpBound r else none
  | [] => none

/-- Regex `^<=\s*([0-9]+\.?[0-9]*)` (base_extractor.py:165). -/
def leBound (t : String) : Option String :=
  if Py.startswith t "<=" then cmpBound (t.data.drop 2) else none

/-- Regex `^>=\s*([0-9]+\.?[0-9]*)` (base_extractor.py:170). -/
def geBound (t : String) : Option String :=
  if Py.startswith t ">=" then cmpBound (t.data.drop 2) else none

/-- `BaseExtractor._parse_range` (base_extractor.py:110-174): empty input and
all unmatched notations yield `(None, None)`; the branches are tried in the
source order dash, tilde, `<`/`≤`, `>`/`≥`, `<=`, `>=`. -/
def _parse_range (range_str : String) : Option String × Option String :=
  if range_str = "" then (none, none)
  else
    let t := Py.strip range_str
    match parseRangeDash t with
    | some (a, b) => (some a, some b)
    | none =>
      match parseRangeTilde t with
      | some (a, b) => (some a, some b)
      | none =>
        match ltBound t with
        | some n => (none, some n)
        | none =>
          match gtBound t with
          | some n => (some n, none)
          | none =>
            match leBound t with
            | some n => (none, some n)
            | none =>
              match geBound t with
              | some n => (some n, none)
              | none => (none, none)

/-- Tuple construction shared by `_categorize_marker` (base_extractor.py:56-80):
a 4-tuple is appended when `min_range is not None or max_range is not None`,
else a 2-tuple. -/
def mkResultRow (name value : String) (min_range max_range : Option String) : Row :=
  if min_range.isSome || max_range.isSome then .quad name value min_range max_range
  else .pair name value

/-- `BaseExtractor._categorize_marker` (base_extractor.py:56-80).  The pattern
matcher's `match_default_marker` / `match_other_marker` (compiled from the
external marker-catalog configuration) and `TextProcessor.clean_marker_name`
are passed as the functions they are; list mutation becomes returning the
extended pair. -/
def _categorize_marker (match_default match_other : String → Option String)
    (clean_marker_name : String → String) (marker value : String)
    (min_range max_range : Option String)
    (default_results other_results : List Row) : List Row × List Row :=
  match match_default marker with
  | some default_name =>
    (default_results ++ [mkResultRow default_name value min_range max_range], other_results)
  | none =>
    match match_other marker with
    | some other_name =>
      (default_results, other_results ++ [mkResultRow other_name value min_range max_range])
    | none =>
      let cleaned_name := clean_marker_name marker
      if 2 < cleaned_name.length then
        (default_results, other_results ++ [mkResultRow cleaned_name value min_range max_range])
      else (default_results, other_results)

end BaseExtractor

/-! ## `pdf_to_csv.py` — TextProcessor, ValueValidator, CSV serialization -/

namespace TextProcessor

/-- Character class kept by the name-cleaning substitution: ASCII letters and
digits, whitespace, dash, slash and parentheses survive; every other
character is deleted. -/
def keepChar (c : Char) : Bool :=
  c.isAlpha || c.isDigit || Py.isSpace c || c = '-' || c = '/' || c = '(' || c = ')'

/-- Python `str.capitalize()`: first character uppercased, the rest lowercased. -/
def capitalize (s : String) : String :=
  match s.data with
  | [] => ""
  | c :: r => ⟨c.toUpper :: r.map Char.toLower⟩

/-- `TextProcessor.clean_marker_name` (pdf_to_csv.py:192-196). -/
def clean_marker_name (raw_name : String) : String :=
  let cleaned : String := ⟨(Py.strip raw_name).data.filter keepChar⟩
  let cleaned := String.intercalate " " (Py.splitWS cleaned)
  String.intercalate " " ((Py.splitWS cleaned).map capitalize)

end TextProcessor

namespace ValueValidator

/-- Lookup in `validation_map` (pdf_to_csv.py:72-93): per-marker `(min, max)`
bounds keyed by lowercased canonical name.  The concrete table comes from
`config/markers.json`, external static configuration; theorems quantify over
the table. -/
def lookupBounds (validation_map : List (String × ℚ × ℚ)) (name : String) :
    Option (ℚ × ℚ) :=
  (validation_map.find? (fun e => e.1 = Py.lower name)).map (·.2)

/-- `ValueValidator.validate_value` (pdf_to_csv.py:95-108): parse the value as
a number (parse failure → `False`), then check the marker's configured bounds,
or the universal fallback `0.001 <= v <= 10000` for unknown markers. -/
def validate_value (validation_map : List (String × ℚ × ℚ))
    (marker_name value : String) : Bool :=
  match Py.float value with
  | none => false
  | some v =>
    match lookupBounds validation_map marker_name with
    | some (mn, mx) => decide (mn ≤ v ∧ v ≤ mx)
    | none => decide (mkRat 1 1000 ≤ v ∧ v ≤ 10000)

end ValueValidator

namespace Csv

/-- Python `csv.writer` default dialect: a field is quoted iff it contains the
delimiter, the quote character, or a line-terminator character. -/
def fieldNeedsQuote (f : String) : Bool :=
  f.data.any (fun c => c = ',' || c = '"' || c = '\r' || c = '\n')

def escapeField (f : String) : String :=
  ⟨(f.data.map (fun c => if c = '"' then ['"', '"'] else [c])).flatten⟩

def writeField (f : String) : String :=
  if fieldNeedsQuote f then "\"" ++ escapeField f ++ "\"" else f

/-- One `writer.writerow(...)` call: comma-joined fields plus the default
`\r\n` line terminator. -/
def writerow (fs : List String) : String :=
  String.intercalate "," (fs.map writeField) ++ "\r\n"

end Csv

/-- Python `min_range or ''` / `max_range or ''` on a range field
(pdf_to_csv.py:939): `None` (and the empty string) render as `''`. -/
def orEmptyStr : Option String → String
  | none => ""
  | some s => s

/-- `generate_csv_content` (pdf_to_csv.py:908-952): concatenates default and
other rows in that order, emits `""` when there is no data, else a header row
(`Marker, MinRange, MaxRange, date` with ranges, `Marker, date` without)
followed by one row per item. -/
def generate_csv_content (default_data other_data : List Row) (date : String)
    (include_ranges : Bool) : String :=
  let all_data := default_data ++ other_data
  if all_data.isEmpty then ""
  else if include_ranges then
    Csv.writerow ["Marker", "MinRange", "MaxRange", date] ++
      String.join (all_data.map (fun item =>
        match item with
        | .quad marker value mn mx => Csv.writerow [marker, orEmptyStr mn, orEmptyStr mx, value]
        | .pair marker value => Csv.writerow [marker, "", "", value]))
  else
    Csv.writerow ["Marker", date] ++
      String.join (all_data.map (fun item => Csv.writerow [item.marker, item.value]))

end Wellavy

namespace Wellavy

/-! ## `extractors/format_detector.py` -/

/-- The `ReportFormat` enumeration (format_detector.py:11-24). -/
inductive ReportFormat where
  | LABCORP_NMR
  | LABCORP_STANDARD
  | LABCORP_ANALYTE_VALUE
  | QUEST_ANALYTE_VALUE
  | QUEST_TABULAR
  | CLEVELAND_HEARTLAB
  | BOSTON_HEART
  | ELATION_LABCORP
  | ELATION_QUEST
  | FUNCTION_HEALTH
  | FRAGMENTED
  | STANDARD
  deriving DecidableEq, Repr

/-- Python `str(format_type)` on a `ReportFormat` member, as interpolated into
the factory's error message. -/
def reportFormatStr : ReportFormat → String
  | .LABCORP_NMR => "ReportFormat.LABCORP_NMR"
  | .LABCORP_STANDARD => "ReportFormat.LABCORP_STANDARD"
  | .LABCORP_ANALYTE_VALUE => "ReportFormat.LABCORP_ANALYTE_VALUE"
  | .QUEST_ANALYTE_VALUE => "ReportFormat.QUEST_ANALYTE_VALUE"
  | .QUEST_TABULAR => "ReportFormat.QUEST_TABULAR"
  | .CLEVELAND_HEARTLAB => "ReportFormat.CLEVELAND_HEARTLAB"
  | .BOSTON_HEART => "ReportFormat.BOSTON_HEART"
  | .ELATION_LABCORP => "ReportFormat.ELATION_LABCORP"
  | .ELATION_QUEST => "ReportFormat.ELATION_QUEST"
  | .FUNCTION_HEALTH => "ReportFormat.FUNCTION_HEALTH"
  | .FRAGMENTED => "ReportFormat.FRAGMENTED"
  | .STANDARD => "ReportFormat.STANDARD"

namespace FormatDetector

/-- The free-standing regex searches compiled in `_compile_detection_patterns`
(format_detector.py:36-60) and `_is_quest_tabular` (format_detector.py:176)
whose verdicts the detector combines with substring checks.  They are carried
as explicit function parameters; every theorem below either quantifies over
them or short-circuits them away through the conjoined substring guards. -/
structure RegexHooks where
  elation_header_search : String → Bool
  elation_labcorp_search : String → Bool
  quest_analyte_search : String → Bool
  quest_tabular_search : String → Bool
  tabular_data_search : String → Bool
  biomarker_count_search : String → Bool
  spaced_biomarker_search : String → Bool

/-- `FormatDetector._is_labcorp_nmr` (format_detector.py:124-135). -/
def _is_labcorp_nmr (text : String) : Bool :=
  ["LDL-P A, 01", "HDL-P (Total) A, 01", "Small LDL-P A, 01", "LDL Size A, 01",
   "NMR LipoProfile"].any (fun indicator => Py.isIn indicator text)

/-- `FormatDetector._is_labcorp_standard` (format_detector.py:137-146). -/
def _is_labcorp_standard (text : String) : Bool :=
  (["A, 01", "A,01"].any (fun indicator => Py.isIn indicator text)) &&
    !(_is_labcorp_nmr text)

/-- `FormatDetector._is_quest_analyte_value` (format_detector.py:148-162). -/
def _is_quest_analyte_value (h : RegexHooks) (text : String) : Bool :=
  let text_lower := Py.lower text
  (Py.isIn "analyte" text_lower && Py.isIn "value" text_lower) &&
    (["quest diagnostics", "questdiagnostics"].any (fun i => Py.isIn i text_lower)) &&
    !(Py.isIn "vibrant america" text_lower) &&
    h.quest_analyte_search text

/-- `FormatDetector._is_quest_tabular` (format_detector.py:164-179). -/
def _is_quest_tabular (h : RegexHooks) (text : String) : Bool :=
  let text_lower := Py.lower text
  (["quest diagnostics", "questdiagnostics"].any (fun i => Py.isIn i text_lower)) &&
    h.quest_tabular_search text && h.tabular_data_search text

/-- `FormatDetector._is_cleveland_heartlab` (format_detector.py:181-194). -/
def _is_cleveland_heartlab (text : String) : Bool :=
  let text_lower := Py.lower text
  let has_cleveland := Py.isIn "cleveland heartlab" text_lower
  let has_fatty_acids :=
    ["omegacheck", "fatty acids"].any (fun t => Py.isIn t text_lower)
  let has_cardiometabolic := Py.isIn "cardiometabolic report" text_lower
  let has_comprehensive_data :=
    ["white blood cell", "hemoglobin", "glucose", "creatinine", "cholesterol"].any
      (fun m => Py.isIn m text_lower)
  has_cleveland && has_fatty_acids && (has_cardiometabolic || !has_comprehensive_data)

/-- `FormatDetector._is_boston_heart` (format_detector.py:196-228). -/
def _is_boston_heart (text : String) : Bool :=
  let text_lower := Py.lower text
  let has_boston_heart :=
    ["boston heart", "200 crossing blvd", "framingham, ma", "ernst j. schaefer",
     "clia# 22d2100622", "nysdoh: 9021"].any (fun i => Py.isIn i text_lower)
  let has_proprietary :=
    ["boston heart hdl map", "boston heart cholesterol balance",
     "boston heart fatty acid balance", "hdl map®", "cholesterol balance®",
     "fatty acid balance™"].any (fun t => Py.isIn t text_lower)
  let has_risk_tiers :=
    Py.isIn "optimal" text_lower && Py.isIn "borderline" text_lower &&
      Py.isIn "increased risk" text_lower
  has_boston_heart || has_proprietary || has_risk_tiers

/-- `FormatDetector._is_elation_labcorp` (format_detector.py:230-242). -/
def _is_elation_labcorp (h : RegexHooks) (text : String) : Bool :=
  (h.elation_header_search text || h.elation_labcorp_search text) &&
    ([" 01", " 02", " 03", " 04"].any (fun code => Py.isIn code text))

/-- `FormatDetector._is_elation_quest` (format_detector.py:244-248): a
placeholder that always returns `False`. -/
def _is_elation_quest (_text : String) : Bool :=
  false

/-- `FormatDetector._is_function_health` (format_detector.py:250-265).  The
two identifier regexes are literal-text searches (IGNORECASE), hence substring
checks on the lowered text; the biomarker-count regexes are hooks. -/
def _is_function_health (h : RegexHooks) (text : String) : Bool :=
  let has_function_dashboard := Py.isIn "function dashboard" (Py.lower text)
  let has_function_url := Py.isIn "my.functionhealth.com" (Py.lower text)
  let has_status_indicators :=
    (Py.isIn "In Range" text && Py.isIn "Out of Range" text) ||
      (Py.isIn "I n  R a n g e" text && Py.isIn "O u t  o f  R a n g e" text)
  let has_biomarker_pattern :=
    h.biomarker_count_search text || h.spaced_biomarker_search text
  (has_function_dashboard || has_function_url) &&
    (has_status_indicators || has_biomarker_pattern)

/-- The non-blank stripped lines of `_is_fragmented` (format_detector.py:269). -/
def nonBlankLines (text : String) : List String :=
  ((Py.splitSep text '\n').map Py.strip).filter (fun line => line ≠ "")

/-- Count of single-word alphabetic lines (format_detector.py:274). -/
def singleWordAlphaCount (lines : List String) : ℕ :=
  (lines.filter (fun line => (Py.splitWS line).length = 1 && Py.isalpha line)).length

/-- `FormatDetector._is_fragmented` (format_detector.py:267-278).  `threshold`
is `settings['extraction_settings']['fragmentation_threshold']` with source
default `0.3` (that is, `mkRat 3 10`); the fragmentation ratio
`single_word_lines / len(lines)` is the exact rational `mkRat`, and the
comparison is the source's strict `>`. -/
def _is_fragmented (threshold : ℚ) (text : String) : Bool :=
  let lines := nonBlankLines text
  if lines.length ≤ 100 then false
  else decide (mkRat (singleWordAlphaCount lines) lines.length > threshold)

/-- `FormatDetector.detect_format` (format_detector.py:62-122): the ordered
predicate chain, returning `none` — Python `None` — when nothing matches. -/
def detect_format (h : RegexHooks) (threshold : ℚ) (text : String) :
    Option ReportFormat :=
  if _is_elation_labcorp h text then some .ELATION_LABCORP
  else if _is_elation_quest text then some .ELATION_QUEST
  else if _is_labcorp_nmr text then some .LABCORP_NMR
  else if _is_labcorp_standard text then some .LABCORP_STANDARD
  else if _is_quest_tabular h text then some .QUEST_TABULAR
  else if _is_quest_analyte_value h text then some .QUEST_ANALYTE_VALUE
  else if _is_cleveland_heartlab text then some .CLEVELAND_HEARTLAB
  else if _is_boston_heart text then some .BOSTON_HEART
  else if _is_function_health h text then some .FUNCTION_HEALTH
  else if _is_fragmented threshold text then some .FRAGMENTED
  else none

end FormatDetector

/-! ## `extractors/extractor_factory.py` -/

namespace ExtractorFactory

/-- The six extractor classes imported and registered by the factory
(extractor_factory.py:7-12, 27-34). -/
inductive ExtractorKind where
  | LabCorpNMRExtractor
  | LabCorpStandardExtractor
  | QuestAnalyteValueExtractor
  | ClevelandHeartLabExtractor
  | FragmentedExtractor
  | StandardExtractor
  deriving DecidableEq, Repr

/-- The static `_extractor_registry` (extractor_factory.py:27-34). -/
def registry : ReportFormat → Option ExtractorKind
  | .LABCORP_NMR => some .LabCorpNMRExtractor
  | .LABCORP_STANDARD => some .LabCorpStandardExtractor
  | .QUEST_ANALYTE_VALUE => some .QuestAnalyteValueExtractor
  | .CLEVELAND_HEARTLAB => some .ClevelandHeartLabExtractor
  | .FRAGMENTED => some .FragmentedExtractor
  | .STANDARD => some .StandardExtractor
  | _ => none

/-- `ExtractorFactory.create_extractor` (extractor_factory.py:36-60): formats
missing from the registry raise
`ValueError(f"Unsupported format: {format_type}")`, modelled as the error
branch of `Except`. -/
def create_extractor (format_type : ReportFormat) : Except String ExtractorKind :=
  match registry format_type with
  | none => .error ("ValueError: Unsupported format: " ++ reportFormatStr format_type)
  | some extractor_class => .ok extractor_class

end ExtractorFactory

/-! ## `pdf_to_csv.py` — `BloodTestExtractor.extract_blood_test_data` -/

/-- The exception text raised at pdf_to_csv.py:857, where
`detected_format.value` is evaluated for the log message even when
`detect_format` returned `None`. -/
def attributeErrorMsg : String :=
  "AttributeError: NoneType object has no attribute value"

/-- `BloodTestExtractor.extract_blood_test_data` (pdf_to_csv.py:836-874):
detect the format, log `detected_format.value` — an `AttributeError` when
detection returned `None` — then build the extractor via the factory and run
it.  The `except` clause (pdf_to_csv.py:872-874) logs and re-raises, so both
the `AttributeError` and the factory's `ValueError` escape to the caller;
`run_extractor` abstracts the per-format `extractor.extract` dispatch over
the six registered extractor classes. -/
def BloodTestExtractor.extract_blood_test_data (h : FormatDetector.RegexHooks)
    (threshold : ℚ)
    (run_extractor : ExtractorFactory.ExtractorKind → String → Bool → List Row × List Row)
    (text : String) (include_ranges : Bool) : Except String (List Row × List Row) :=
  match FormatDetector.detect_format h threshold text with
  | none => .error attributeErrorMsg
  | some detected_format =>
    match ExtractorFactory.create_extractor detected_format with
    | .error e => .error e
    | .ok extractor => .ok (run_extractor extractor text include_ranges)

end Wellavy

namespace Py

/-- Remainder of `l` after the first occurrence of `sub`, for the regex idiom
`.*sub` followed by further search text (lines contain no newline, so the
dot is unrestricted here).  A later occurrence never helps a subsequent
search that the first occurrence does not. -/
def afterFirst (sub : String) : List Char → Option (List Char)
  | [] => if sub.data.isEmpty then some [] else none
  | l@(_ :: rest) =>
    if sub.data.isPrefixOf l then some (l.drop sub.data.length)
    else afterFirst sub rest

/-- Head digit run of length at least one, returning the remainder. -/
def digitRun1 (cs : List Char) : Option (List Char) :=
  let d := cs.takeWhile Char.isDigit
  if d.isEmpty then none else some (cs.drop d.length)

/-- Head whitespace run of length at least one (regex `\s+`), returning the
remainder. -/
def wsRun1 (cs : List Char) : Option (List Char) :=
  let w := cs.takeWhile isSpace
  if w.isEmpty then none else some (cs.drop w.length)

end Py

namespace Wellavy

/-! ## `extractors/function_health_extractors.py` -/

namespace FunctionHealthExtractor

/-- The regex scan inside `_extract_concatenated_biomarkers`
(function_health_extractors.py:139-184), reached only past the
`'NEW' not in line or 'In Range' not in line` guard; carried as a hook
because no claim depends on its automaton, and quantified over in every
theorem that touches it. -/
structure FHHooks where
  concatenated_scan : String → Bool → List Row

/-- Regex `^\d+/\d+/\d+` as a prefix: three digit runs separated by slashes.
The runs are bounded by the slashes, so maximal munch on the first two is
exact; the third run's spare digits belong to the following unrestricted
gap, so its minimal match (one digit) yields the largest — hence complete —
search space for the continuation. -/
def dateSlashHead (cs : List Char) : Option (List Char) :=
  match Py.digitRun1 cs with
  | some ('/' :: r1) =>
    match Py.digitRun1 r1 with
    | some ('/' :: r2) =>
      match r2 with
      | c :: rest => if c.isDigit then some rest else none
      | [] => none
    | _ => none
  | _ => none

/-- Regex `\d+:\d+\s+[ap]m` anchored at the end of the line (the tail of the
skip pattern for page headers), checked by a reverse scan. -/
def endsWithTimeStamp (cs : List Char) : Bool :=
  match cs.reverse with
  | 'm' :: c :: rest =>
    (c = 'a' || c = 'p') &&
      (let w := rest.takeWhile Py.isSpace
       !w.isEmpty &&
         (let d1 := (rest.drop w.length).takeWhile Char.isDigit
          !d1.isEmpty &&
            (match (rest.drop w.length).drop d1.length with
             | ':' :: r3 => !(r3.takeWhile Char.isDigit).isEmpty
             | _ => false)))
  | _ => false

/-- The sixteen category-header lines skipped exactly
(function_health_extractors.py:116-119). -/
def categoryHeaders : List String :=
  ["autoimmunity", "biological age", "blood", "electrolytes",
   "environmental toxins", "heart", "immune regulation", "kidney",
   "liver", "male health", "metabolic", "nutrients", "pancreas",
   "stress & aging", "thyroid", "urine"]

/-- `FunctionHealthExtractor._should_skip_line`
(function_health_extractors.py:104-129): every source pattern is anchored at
the start of the lowered line, so each is a prefix / exact / ordered-search
condition. -/
def _should_skip_line (line : String) : Bool :=
  let l := Py.lower line
  let cs := l.data
  -- r'^\d+/\d+/\d+.*pm.*function dashboard'
  (match dateSlashHead cs with
   | some rest =>
     match Py.afterFirst "pm" rest with
     | some r2 => Py.isIn "function dashboard" ⟨r2⟩
     | none => false
   | none => false) ||
  -- r'^your health.*function dashboard'
  (Py.startswith l "your health" &&
    Py.isIn "function dashboard" ⟨cs.drop "your health".data.length⟩) ||
  -- r'^https://my\.functionhealth\.com'
  Py.startswith l "https://my.functionhealth.com" ||
  -- r'^\d+biomarkers'
  (match Py.digitRun1 cs with
   | some rest => "biomarkers".data.isPrefixOf rest
   | none => false) ||
  -- r'^in range out of range improving'
  Py.startswith l "in range out of range improving" ||
  -- r'^\d+\s+\d+\s+\d+$'
  (match Py.digitRun1 cs with
   | some r1 =>
     match Py.wsRun1 r1 with
     | some r2 =>
       match Py.digitRun1 r2 with
       | some r3 =>
         match Py.wsRun1 r3 with
         | some r4 =>
           match Py.digitRun1 r4 with
           | some r5 => r5.isEmpty
           | none => false
         | none => false
       | none => false
     | none => false
   | none => false) ||
  -- the sixteen exact category headers
  (categoryHeaders.any (fun hdr => l = hdr)) ||
  -- r'^page \d+ of \d+$'
  (Py.startswith l "page " &&
    (match Py.digitRun1 (cs.drop "page ".data.length) with
     | some r1 =>
       if " of ".data.isPrefixOf r1 then
         match Py.digitRun1 (r1.drop " of ".data.length) with
         | some r2 => r2.isEmpty
         | none => false
       else false
     | none => false)) ||
  -- r'^\d+/\d+/\d+.*\d+:\d+\s+[ap]m$'
  (match dateSlashHead cs with
   | some rest => endsWithTimeStamp rest
   | none => false) ||
  -- r'^.{1,2}$'  (lines contain no newline)
  (cs.length = 1 || cs.length = 2)

/-- `_extract_concatenated_biomarkers` (function_health_extractors.py:131-184):
the guard `'NEW' not in line or 'In Range' not in line` returns `[]`, else the
segment-by-segment regex scan (the hook) runs. -/
def _extract_concatenated_biomarkers (h : FHHooks) (line : String)
    (include_ranges : Bool) : List Row :=
  if !(Py.isIn "NEW" line) || !(Py.isIn "In Range" line) then []
  else h.concatenated_scan line include_ranges

/-- The status alternation `In Range|Above Range|Below Range|Younger`
(pattern 1) or without `Younger` (patterns 2-6).  The alternatives start with
distinct characters, so at most one can match at the head. -/
def statusTok (withYounger : Bool) (cs : List Char) : Option (String × List Char) :=
  let alts := if withYounger then ["In Range", "Above Range", "Below Range", "Younger"]
              else ["In Range", "Above Range", "Below Range"]
  match alts.find? (fun a => a.data.isPrefixOf cs) with
  | some a => some (a, cs.drop a.data.length)
  | none => none

/-- Regex `-?\d+\.?\d*`: optional minus then a number token. -/
def signedNum (cs : List Char) : Option (String × List Char) :=
  match cs with
  | '-' :: r => (Py.numToken r).map (fun p => ("-" ++ p.1, p.2))
  | _ => Py.numToken cs

/-- One spaced-status alternative of patterns 7/8, e.g. literal `I n`, then
`\s+`, then literal `R a n g e`; returns the matched group text and the
remainder. -/
def spacedTok (a b : String) (cs : List Char) : Option (String × List Char) :=
  if a.data.isPrefixOf cs then
    let r := cs.drop a.data.length
    if b = "" then some (a, r)
    else
      let w := r.takeWhile Py.isSpace
      if w.isEmpty then none
      else
        let r2 := r.drop w.length
        if b.data.isPrefixOf r2 then
          some (⟨a.data ++ w ++ b.data⟩, r2.drop b.data.length)
        else none
  else none

/-- The spaced-status alternation of patterns 7/8; alternatives start with
distinct characters. -/
def spacedStatusTok (withYounger : Bool) (cs : List Char) :
    Option (String × List Char) :=
  match spacedTok "I n" "R a n g e" cs with
  | some r => some r
  | none =>
    match spacedTok "A b o v e" "R a n g e" cs with
    | some r => some r
    | none =>
      match spacedTok "B e l o w" "R a n g e" cs with
      | some r => some r
      | none =>
        if withYounger then spacedTok "Y o u n g e r" "" cs else none

/-- `status.replace(' ', '')` followed by the `status_map` lookup with the
raw status as default (function_health_extractors.py:228-231, 239-241). -/
def normalizeSpacedStatus (raw : String) : String :=
  let key := Py.replaceChar raw ' ' ""
  if key = "InRange" then "In Range"
  else if key = "AboveRange" then "Above Range"
  else if key = "BelowRange" then "Below Range"
  else if key = "Younger" then "Younger"
  else key

/-- Index of the last whitespace character of `M` not exceeding `bound`
(the greedy split point of pattern 7's `([\d\s\.]+)\s+(.+)$` tail). -/
def lastWsIndexUpto (M : List Char) (bound : ℕ) : Option ℕ :=
  ((List.range M.length).filter
    (fun i => i ≤ bound && Py.isSpace (M.getD i 'x'))).getLast?

/-- The `\s+`/`(.+)$` tail of pattern 7 after the spaced status: a maximal
`[\d\s\.]+` region `M`, split at the last usable whitespace position so that
the value group is longest (regex greediness) while the final `.+` group
stays non-empty. -/
def p7ValueUnit (r1 : List Char) : Option (String × String) :=
  match Py.wsRun1 r1 with
  | none => none
  | some r2 =>
    let M := r2.takeWhile (fun c => c.isDigit || Py.isSpace c || c = '.')
    if M.isEmpty then none
    else
      let rest' := r2.drop M.length
      let bound := if rest'.isEmpty then M.length - 2 else M.length - 1
      match lastWsIndexUpto M bound with
      | some k =>
        if k = 0 then none
        else some (⟨M.take k⟩, ⟨M.drop (k + 1) ++ rest'⟩)
      | none => none

/-- `FunctionHealthExtractor._parse_status_line`
(function_health_extractors.py:186-245): the eight anchored patterns tried in
source order, producing `(status, value, unit)`. -/
def _parse_status_line (line : String) : Option (String × String × String) :=
  let cs := line.data
  -- Pattern 1: ^(In Range|Above Range|Below Range|Younger)\s+(-?\d+\.?\d*)\s+(.+)$
  let p1 : Option (String × String × String) :=
    match statusTok true cs with
    | some (st, r1) =>
      match Py.wsRun1 r1 with
      | some r2 =>
        match signedNum r2 with
        | some (v, r3) =>
          match Py.wsRun1 r3 with
          | some r4 => if r4.isEmpty then none else some (st, v, ⟨r4⟩)
          | none => none
        | none => none
      | none => none
    | none => none
  match p1 with
  | some r => some r
  | none =>
  -- Pattern 2: ^(In Range|Above Range|Below Range)\s+(\d+\.?\d*)\s*%$
  let p2 : Option (String × String × String) :=
    match statusTok false cs with
    | some (st, r1) =>
      match Py.wsRun1 r1 with
      | some r2 =>
        match Py.numToken r2 with
        | some (v, r3) =>
          if r3.dropWhile Py.isSpace = ['%'] then some (st, v, "%") else none
        | none => none
      | none => none
    | none => none
  match p2 with
  | some r => some r
  | none =>
  -- Pattern 3: ^(In Range|Above Range|Below Range)\s+(<\d+\.?\d*)\s+(.+)$
  let p3 : Option (String × String × String) :=
    match statusTok false cs with
    | some (st, r1) =>
      match Py.wsRun1 r1 with
      | some ('<' :: r2) =>
        match Py.numToken r2 with
        | some (v, r3) =>
          match Py.wsRun1 r3 with
          | some r4 => if r4.isEmpty then none else some (st, "<" ++ v, ⟨r4⟩)
          | none => none
        | none => none
      | _ => none
    | none => none
  match p3 with
  | some r => some r
  | none =>
  -- Pattern 3a: ^(In Range|Above Range|Below Range)\s+(\d+\.?\d*)$
  let p3a : Option (String × String × String) :=
    match statusTok false cs with
    | some (st, r1) =>
      match Py.wsRun1 r1 with
      | some r2 =>
        match Py.numToken r2 with
        | some (v, []) => some (st, v, "")
        | _ => none
      | none => none
    | none => none
  match p3a with
  | some r => some r
  | none =>
  -- Pattern 4: ^(...)\s+(Negative|Positive|Normal|Abnormal)$
  let p4 : Option (String × String × String) :=
    match statusTok false cs with
    | some (st, r1) =>
      match Py.wsRun1 r1 with
      | some r2 =>
        if ["Negative", "Positive", "Normal", "Abnormal"].any
            (fun w => r2 = w.data) then
          some (st, ⟨r2⟩, "")
        else none
      | none => none
    | none => none
  match p4 with
  | some r => some r
  | none =>
  -- Pattern 5: ^(...)\s+([A-Z]+)$
  let p5 : Option (String × String × String) :=
    match statusTok false cs with
    | some (st, r1) =>
      match Py.wsRun1 r1 with
      | some r2 =>
        if !r2.isEmpty && r2.all (fun c => 'A' ≤ c && c ≤ 'Z') then
          some (st, ⟨r2⟩, "")
        else none
      | none => none
    | none => none
  match p5 with
  | some r => some r
  | none =>
  -- Pattern 6: ^(...)\s+(Yellow|Clear|Red|Brown|Orange)$
  let p6 : Option (String × String × String) :=
    match statusTok false cs with
    | some (st, r1) =>
      match Py.wsRun1 r1 with
      | some r2 =>
        if ["Yellow", "Clear", "Red", "Brown", "Orange"].any
            (fun w => r2 = w.data) then
          some (st, ⟨r2⟩, "")
        else none
      | none => none
    | none => none
  match p6 with
  | some r => some r
  | none =>
  -- Pattern 7: spaced numeric with unit
  let p7 : Option (String × String × String) :=
    match spacedStatusTok true cs with
    | some (raw, r1) =>
      match p7ValueUnit r1 with
      | some (v, u) =>
        some (normalizeSpacedStatus raw, Py.replaceChar v ' ' "", u)
      | none => none
    | none => none
  match p7 with
  | some r => some r
  | none =>
  -- Pattern 8: spaced qualitative
  match spacedStatusTok false cs with
  | some (raw, r1) =>
    match Py.wsRun1 r1 with
    | some r2 =>
      if r2 = "N e g a t i v e".data || r2 = "P o s i t i v e".data then
        some (normalizeSpacedStatus raw, Py.replaceChar ⟨r2⟩ ' ' "", "")
      else none
    | none => none
  | none => none

/-- The spaced-name test of `_clean_marker_name`: regex `^[A-Z]\s+[a-z]`. -/
def spacedNameStart (m : String) : Bool :=
  match m.data with
  | c :: rest =>
    ('A' ≤ c && c ≤ 'Z') &&
      (let w := rest.takeWhile Py.isSpace
       !w.isEmpty &&
         (match rest.drop w.length with
          | c2 :: _ => 'a' ≤ c2 && c2 ≤ 'z'
          | [] => false))
  | [] => false

/-- The exact-name `replacements` table of `_clean_marker_name`
(function_health_extractors.py:258-270). -/
def replacements : List (String × String) :=
  [("HDL-c", "HDL-C"), ("LDL-c", "LDL-C"),
   ("TSH (Thyroid Stimulating Hormone)", "TSH"),
   ("T4 (Thyroxine), Free", "Free T4"),
   ("T3 (Triiodothyronine), Free", "Free T3"),
   ("Hemoglobin", "Hemoglobin"),
   ("MeanCorpuscularVolume(MCV)", "Mean Corpuscular Volume (MCV)"),
   ("TotalCholesterol", "Total Cholesterol"),
   ("LDL-Cholesterol", "LDL-Cholesterol"),
   ("TestosteroneTotal", "Testosterone, Total")]

/-- `FunctionHealthExtractor._clean_marker_name`
(function_health_extractors.py:247-272). -/
def _clean_marker_name (marker_name : String) : String :=
  let m := Py.strip marker_name
  let m := if spacedNameStart m then ⟨m.data.filter (fun c => !Py.isSpace c)⟩ else m
  match replacements.find? (fun p => p.1 = m) with
  | some p => p.2
  | none => m

/-- The qualitative values accepted by the validity check
(function_health_extractors.py:295). -/
def qualitative_values : List String :=
  ["negative", "positive", "normal", "abnormal", "yellow", "clear",
   "o", "a", "b", "ab"]

/-- Regex `^[<>]?\d+\.?\d*$` applied to the value with all `<`/`>` characters
already removed (function_health_extractors.py:300). -/
def fhNumericShape (value : String) : Bool :=
  let s := Py.replaceChar (Py.replaceChar value '<' "") '>' ""
  let cs := match s.data with
            | c :: r => if c = '<' || c = '>' then r else s.data
            | [] => s.data
  match Py.numToken cs with
  | some (_, []) => true
  | _ => false

/-- `FunctionHealthExtractor._is_valid_function_health_extraction`
(function_health_extractors.py:274-306): accepts qualitative tokens and blood
types outright; the shared `ValueValidator` is never consulted. -/
def _is_valid_function_health_extraction (marker value : String) : Bool :=
  let marker := Py.strip marker
  let value := Py.strip value
  if marker.length < 2 then false
  else if !marker.data.isEmpty && marker.data.all Char.isDigit then false
  else if Py.startswith (Py.lower marker) "page " &&
          (match (Py.lower marker).data.drop "page ".data.length with
           | c :: _ => c.isDigit
           | [] => false) then false
  else if value = "" then false
  else if (Py.lower value) ∈ qualitative_values then true
  else if fhNumericShape value then true
  else if (Py.upper value) ∈ ["O", "A", "B", "AB"] then true
  else false

/-- `FunctionHealthExtractor._infer_range_from_status`
(function_health_extractors.py:308-320). -/
def _infer_range_from_status (status value : String) : String × String :=
  if status = "In Range" then ("", "")
  else if status = "Above Range" then ("", value)
  else if status = "Below Range" then (value, "")
  else ("", "")

/-- The tuple appended by `extract` for one accepted biomarker: a 4-tuple of
strings via `_infer_range_from_status` when ranges are requested, else a
2-tuple. -/
def emitRow (include_ranges : Bool) (marker value status : String) : Row :=
  if include_ranges then
    let r := _infer_range_from_status status value
    Row.quad marker value (some r.1) (some r.2)
  else Row.pair marker value

/-- The scanning loop of `FunctionHealthExtractor.extract`
(function_health_extractors.py:36-99): `while i < len(lines) - 1` with steps
of 1 (blank/skipped/unparsed), 2 (two-line biomarker) or 3 (`NEW` badge
between name and status line); a failed `NEW` third-line parse falls through
to the two-line check on the literal line `NEW`.  The recursion is driven by
a fuel argument so that it computes by kernel reduction; every step consumes
at least one line, so the line count (supplied by `extract`) is always
enough fuel. -/
def extractLoop (h : FHHooks) (include_ranges : Bool) :
    ℕ → List String → List Row
  | 0, _ => []
  | _, [] => []
  | _, [_] => []
  | fuel + 1, l1 :: l2 :: rest =>
    let current_line := Py.strip l1
    let next_line := Py.strip l2
    if current_line = "" || next_line = "" then
      extractLoop h include_ranges fuel (l2 :: rest)
    else if _should_skip_line current_line then
      extractLoop h include_ranges fuel (l2 :: rest)
    else
      match _extract_concatenated_biomarkers h current_line include_ranges with
      | r :: rs => (r :: rs) ++ extractLoop h include_ranges fuel (l2 :: rest)
      | [] =>
        let newBadge : Option (List Row) :=
          if next_line = "NEW" then
            match rest with
            | l3 :: rest2 =>
              match _parse_status_line (Py.strip l3) with
              | some (status, value, _unit) =>
                let marker_name := _clean_marker_name current_line
                some ((if _is_valid_function_health_extraction marker_name value
                       then [emitRow include_ranges marker_name value status]
                       else []) ++ extractLoop h include_ranges fuel rest2)
              | none => none
            | [] => none
          else none
        match newBadge with
        | some out => out
        | none =>
          match _parse_status_line next_line with
          | some (status, value, _unit) =>
            let marker_name := _clean_marker_name current_line
            (if _is_valid_function_health_extraction marker_name value
             then [emitRow include_ranges marker_name value status]
             else []) ++ extractLoop h include_ranges fuel rest
          | none => extractLoop h include_ranges fuel (l2 :: rest)

/-- `FunctionHealthExtractor.extract` (function_health_extractors.py:27-102):
scan the split lines, then deduplicate preserving order; the second component
of the returned pair is always the literal empty list. -/
def extract (h : FHHooks) (text : String) (include_ranges : Bool) :
    List Row × List Row :=
  let lines := Py.splitSep text '\n'
  (BaseExtractor.remove_duplicates_preserve_order
    (extractLoop h include_ranges lines.length lines), [])

end FunctionHealthExtractor

end Wellavy

namespace Wellavy

/-! ## `extractors/quest_extractors.py` — `QuestAnalyteValueExtractor` -/

namespace QuestAnalyteValueExtractor

/-- Regex `^([0-9<>]+\.?[0-9]*)` applied to the value line
(quest_extractors.py:78): a run of digits and comparison characters, an
optional dot, trailing digits. -/
def questValueMatch (s : String) : Option String :=
  let cs := s.data
  let a := cs.takeWhile (fun c => c.isDigit || c = '<' || c = '>')
  if a.isEmpty then none
  else
    match cs.drop a.length with
    | '.' :: r => some ⟨a ++ '.' :: r.takeWhile Char.isDigit⟩
    | _ => some ⟨a⟩

/-- The upper-cased skip substrings of `_is_valid_analyte_extraction`
(quest_extractors.py:226-229). -/
def skipSubstrings : List String :=
  ["PATIENT", "PHONE", "CLIENT", "REQUISITION", "COLLECTED", "REPORTED",
   "REFERENCE", "RANGE", "KHURANA", "WILD HEALTH", "LEXINGTON", "PAGE",
   "FAX", "SPECIMEN", "COLLECTED", "RECEIVED"]

/-- Regex `^\d+\s*/\s*\d+$` (page numbers such as `2 / 10`). -/
def pageNumberShape (cs : List Char) : Bool :=
  match Py.digitRun1 cs with
  | some r1 =>
    match r1.dropWhile Py.isSpace with
    | '/' :: r2 =>
      match Py.digitRun1 (r2.dropWhile Py.isSpace) with
      | some r4 => r4.isEmpty
      | none => false
    | _ => false
  | none => false

/-- `QuestAnalyteValueExtractor._is_valid_analyte_extraction`
(quest_extractors.py:217-249): substring and shape rejections on the
upper-cased marker, then `float(value)` with the `0 ≤ v ≤ 100000` sanity
bounds. -/
def _is_valid_analyte_extraction (marker value : String) : Bool :=
  let m := Py.upper (Py.strip marker)
  if skipSubstrings.any (fun s => Py.isIn s m) then false
  else if pageNumberShape m.data then false
  else if m.length < 3 then false
  else
    match Py.float value with
    | none => false
    | some v => !(decide (v < 0) || decide (v > 100000))

/-- Character class of the Quest range shapes: `[0-9\.\-<>=\s]`. -/
def rangeChar (c : Char) : Bool :=
  c.isDigit || c = '.' || c = '-' || c = '<' || c = '>' || c = '=' || Py.isSpace c

/-- `QuestAnalyteValueExtractor._parse_quest_range`
(quest_extractors.py:177-215): strip the units tail, then try `min-max`
(both parts must be numeric), `<value`, `>value`, else no bounds. -/
def _parse_quest_range (range_str : String) : Option String × Option String :=
  let t := Py.strip range_str
  let rp := t.data.takeWhile rangeChar
  if rp.isEmpty then (none, none)
  else
    let range_part := Py.strip ⟨rp⟩
    let dash : Option (String × String) :=
      if Py.isIn "-" range_part && !(Py.startswith range_part "<") &&
          !(Py.startswith range_part ">") then
        match Py.splitSep range_part '-' with
        | [a, b] =>
          let mn := Py.strip a
          let mx := Py.strip b
          if (Py.float mn).isSome && (Py.float mx).isSome then some (mn, mx)
          else none
        | _ => none
      else none
    match dash with
    | some (mn, mx) => (some mn, some mx)
    | none =>
      match range_part.data with
      | '<' :: r =>
        match Py.numToken (r.dropWhile Py.isSpace) with
        | some (n, _) => (none, some n)
        | none => (none, none)
      | '>' :: r =>
        match Py.numToken (r.dropWhile Py.isSpace) with
        | some (n, _) => (some n, none)
        | none => (none, none)
      | _ => (none, none)

/-- Full-line shape `^[0-9\.\-<>=\s]+$` of a candidate range line
(quest_extractors.py:122). -/
def rangeLineShape (cs : List Char) : Bool :=
  !cs.isEmpty && cs.all rangeChar

/-- `QuestAnalyteValueExtractor._find_range_info`
(quest_extractors.py:105-125): scan up to ten lines ahead (stopping at the
end of the document) for the first line of range shape and length above one,
and parse it; otherwise no bounds. -/
def _find_range_info (lines : List String) (start_idx : ℕ) :
    Option String × Option String :=
  match ((List.range 10).filter (fun off => start_idx + off < lines.length)).find?
      (fun off =>
        let line := Py.strip (lines.getD (start_idx + off) "")
        rangeLineShape line.data && 1 < line.length) with
  | some off => _parse_quest_range (Py.strip (lines.getD (start_idx + off) ""))
  | none => (none, none)

/-- The `Analyte`-then-`Value` section-header test of the outer loop
(quest_extractors.py:40-41); `line` is the stripped current line. -/
def sectionStart (lines : List String) (i : ℕ) (line : String) : Bool :=
  (Py.isIn "Analyte" line && Py.endswith (Py.strip line) "Analyte") &&
    i + 1 < lines.length && Py.strip (lines.getD (i + 1) "") = "Value"

/-- Unit-only lines skipped inside a section (quest_extractors.py:61-62). -/
def questUnitLines : List String :=
  ["thousand/ul", "million/ul", "g/dl", "mg/dl", "ng/ml", "%", "fl", "pg",
   "cells/ul", "u/l", "mg/l", "mmol/l"]

/-- Header/info keywords skipped inside a section (quest_extractors.py:67-69). -/
def questInfoKeywords : List String :=
  ["page", "patient", "collected", "reported", "requisition", "client",
   "phone", "fax", "specimen"]

/-- The two nested `while` loops of `QuestAnalyteValueExtractor.extract`
(quest_extractors.py:36-100) as one fueled step function; `inSection` is
true inside an `Analyte`/`Value` section.  Outer state: advance until a
section header pair opens a section.  Inner state: skip blank, range, unit
and info lines; a marker line followed by a value-shaped line emits one
(validated) result and advances by two; the next `Analyte` header breaks
back to the outer state without advancing.  Every step advances the index
or toggles the state at most once before advancing, so the fuel
`2 * len + 2` supplied by `extract` is never exhausted. -/
def questLoop (lines : List String) (include_ranges : Bool) :
    ℕ → Bool → ℕ → List Row
  | 0, _, _ => []
  | fuel + 1, false, i =>
    if i < lines.length then
      let line := Py.strip (lines.getD i "")
      if sectionStart lines i line then
        questLoop lines include_ranges fuel true (i + 2)
      else questLoop lines include_ranges fuel false (i + 1)
    else []
  | fuel + 1, true, i =>
    if i < lines.length then
      let marker_line := Py.strip (lines.getD i "")
      if marker_line = "Analyte" then questLoop lines include_ranges fuel false i
      else if marker_line = "" then
        questLoop lines include_ranges fuel true (i + 1)
      else if marker_line = "Reference Range:" ||
          (Py.lower marker_line) ∈ questUnitLines then
        questLoop lines include_ranges fuel true (i + 1)
      else if questInfoKeywords.any
          (fun k => Py.isIn k (Py.lower marker_line)) then
        questLoop lines include_ranges fuel true (i + 1)
      else if i + 1 < lines.length then
        let value_line := Py.strip (lines.getD (i + 1) "")
        match questValueMatch value_line with
        | some value =>
          let emitted : List Row :=
            if include_ranges then
              let range_info := _find_range_info lines (i + 2)
              if _is_valid_analyte_extraction marker_line value then
                [Row.quad marker_line value range_info.1 range_info.2]
              else []
            else
              if _is_valid_analyte_extraction marker_line value then
                [Row.pair marker_line value]
              else []
          emitted ++ questLoop lines include_ranges fuel true (i + 2)
        | none => questLoop lines include_ranges fuel true (i + 1)
      else questLoop lines include_ranges fuel true (i + 1)
    else questLoop lines include_ranges fuel false i

/-- `QuestAnalyteValueExtractor.extract` (quest_extractors.py:30-103): run
the section scan over the split lines, deduplicate preserving order, and
return everything in the first list — the second component is the literal
empty list; `_categorize_marker` is never consulted. -/
def extract (text : String) (include_ranges : Bool) : List Row × List Row :=
  let lines := Py.splitSep text '\n'
  (BaseExtractor.remove_duplicates_preserve_order
    (questLoop lines include_ranges (2 * lines.length + 2) false 0), [])

end QuestAnalyteValueExtractor

end Wellavy

namespace Wellavy

/-! ## Auxiliary definitions used by the verification statements -/

/-- Number of rows of a list carrying a given deduplication key. -/
def countKey (k : String × String) : List Row → ℕ
  | [] => 0
  | r :: rs => (if r.key = k then 1 else 0) + countKey k rs

/-- Head-character test for the four comparison-operator branches of
`_parse_range`: each of their anchored regexes can only fire when the
stripped string starts with one of these characters. -/
def BaseExtractor.startsWithCmp (t : String) : Bool :=
  match t.data with
  | c :: _ => c = '<' || c = '>' || c = '≤' || c = '≥'
  | [] => false

/-- Modelled from the spec: `PatternMatcher.match_default_marker`
(pdf_to_csv.py:155-160) matches a raw label against the compiled "default"
(tracked panel) catalog patterns from `config/markers.json`, a configuration
file that is not present under `src/`.  Per the spec (§2 PatternMatcher, §3
CanonicalMarkerName, Glossary) the default catalog is the curated set of
commonly tracked panels (CMP, CBC, hormones, lipids), matched
case-insensitively and mapped to canonical names; this model instantiates
that table with representative members. -/
def PatternMatcher.match_default_marker_model (label : String) : Option String :=
  (([("glucose", "Glucose"), ("cholesterol", "Cholesterol, Total"),
     ("triglycerides", "Triglycerides"), ("hemoglobin", "Hemoglobin"),
     ("wbc", "WBC"), ("tsh", "TSH"), ("creatinine", "Creatinine")] :
      List (String × String)).find?
    (fun p => Py.isIn p.1 (Py.lower label))).map (fun p => p.2)

/-- A document matching no format-detection predicate: no vendor markers and
far fewer than one hundred lines (the spec's end-to-end scenario C). -/
def unsupportedDoc : String :=
  "Routine physical exam notes\nNo laboratory data present"

/-- A minimal Function Health dashboard document: the `function dashboard`
identifier plus both status indicators, and none of the earlier formats'
markers. -/
def functionHealthDoc : String :=
  "function dashboard\nIn Range Out of Range"

/-- A Quest Analyte/Value section whose single marker name matches no
default-catalog pattern. -/
def questUnknownMarkerDoc : String :=
  "Analyte\nValue\nZZZUNKNOWNMARKER\n42"

/-- A synthetic 110-line document with exactly `0.3 × 110 = 33` single-word
alphabetic lines: the fragmentation ratio sits exactly on the default
threshold. -/
def fragBoundaryDoc : String :=
  String.intercalate "\n" (List.replicate 33 "alpha" ++ List.replicate 77 "two words")

/-- The same synthetic document with one more single-word line (34 of 110):
the ratio strictly exceeds the default threshold. -/
def fragCrossedDoc : String :=
  String.intercalate "\n" (List.replicate 34 "alpha" ++ List.replicate 76 "two words")

/-- An example per-marker validation table standing in for the external
`config/markers.json` bounds: Glucose configured with bounds 65-99. -/
def exampleValidationMap : List (String × ℚ × ℚ) :=
  [("glucose", (65, 99))]

end Wellavy

namespace Wellavy

/-! # Verification statements -/

section Dedup

open BaseExtractor

/-- The deduplication scan only ever drops elements: its output is a sublist
of its input, in the input's order. -/
theorem removeDuplicatesAux_sublist (rows : List Row) :
    ∀ seen, (removeDuplicatesAux seen rows).Sublist rows := by
  induction rows with
  | nil => intro seen; simp [removeDuplicatesAux]
  | cons r rs ih =>
    intro seen
    simp only [removeDuplicatesAux]
    split
    · exact (ih seen).cons r
    · exact (ih _).cons₂ r

/-- Every row surviving the scan has a key outside the seen set. -/
theorem key_not_seen_of_mem (rows : List Row) :
    ∀ seen r, r ∈ removeDuplicatesAux seen rows → r.key ∉ seen := by
  induction rows with
  | nil => intro seen r h; simp [removeDuplicatesAux] at h
  | cons a rs ih =>
    intro seen r h
    simp only [removeDuplicatesAux] at h
    split at h
    · exact ih seen r h
    · rename_i hnot
      rcases List.mem_cons.mp h with rfl | h2
      · exact hnot
      · intro hc
        exact ih _ r h2 (List.mem_cons_of_mem _ hc)

/-- The surviving rows have pairwise distinct keys. -/
theorem keys_nodup (rows : List Row) :
    ∀ seen, (removeDuplicatesAux seen rows).Pairwise (fun a b => a.key ≠ b.key) := by
  induction rows with
  | nil => intro seen; simp [removeDuplicatesAux]
  | cons a rs ih =>
    intro seen
    simp only [removeDuplicatesAux]
    split
    · exact ih seen
    · refine List.Pairwise.cons ?_ (ih _)
      intro b hb hk
      exact key_not_seen_of_mem rs _ b hb (hk ▸ List.mem_cons_self _ _)

/-- A list whose keys avoid the seen set and are pairwise distinct passes
through the scan unchanged. -/
theorem removeDuplicatesAux_eq_self (l : List Row) :
    ∀ seen, (∀ r ∈ l, r.key ∉ seen) →
      l.Pairwise (fun a b => a.key ≠ b.key) → removeDuplicatesAux seen l = l := by
  induction l with
  | nil => intro seen _ _; rfl
  | cons a rs ih =>
    intro seen hseen hpw
    simp only [removeDuplicatesAux]
    rw [if_neg (hseen a (List.mem_cons_self a rs))]
    congr 1
    refine ih _ ?_ (List.Pairwise.of_cons hpw)
    intro r hr hc
    rcases List.mem_cons.mp hc with h1 | h2
    · exact List.rel_of_pairwise_cons hpw hr h1.symm
    · exact hseen r (List.mem_cons_of_mem _ hr) h2

/-- Once a key is in the seen set it never appears in the output. -/
theorem countKey_zero_of_seen (rows : List Row) :
    ∀ seen k, k ∈ seen → countKey k (removeDuplicatesAux seen rows) = 0 := by
  induction rows with
  | nil => intro seen k _; rfl
  | cons a rs ih =>
    intro seen k hk
    simp only [removeDuplicatesAux]
    split
    · exact ih seen k hk
    · rename_i hnot
      have hak : a.key ≠ k := fun h => hnot (h ▸ hk)
      simp only [countKey, if_neg hak, Nat.zero_add]
      exact ih _ k (List.mem_cons_of_mem _ hk)

/-- A key occurring in the input and not yet seen occurs exactly once in the
output. -/
theorem countKey_one (rows : List Row) :
    ∀ seen k, k ∉ seen → (∃ r ∈ rows, r.key = k) →
      countKey k (removeDuplicatesAux seen rows) = 1 := by
  induction rows with
  | nil =>
    intro seen k _ hex
    rcases hex with ⟨r, hr, _⟩
    exact absurd hr (List.not_mem_nil r)
  | cons a rs ih =>
    intro seen k hk hex
    simp only [removeDuplicatesAux]
    split
    · rename_i hseen
      have hak : a.key ≠ k := fun h => hk (h ▸ hseen)
      rcases hex with ⟨r, hr, hkey⟩
      rcases List.mem_cons.mp hr with rfl | hr2
      · exact absurd hkey hak
      · exact ih seen k hk ⟨r, hr2, hkey⟩
    · by_cases hak : a.key = k
      · simp only [countKey, if_pos hak]
        rw [countKey_zero_of_seen rs _ k (hak ▸ List.mem_cons_self _ _)]
      · simp only [countKey, if_neg hak]
        rcases hex with ⟨r, hr, hkey⟩
        rcases List.mem_cons.mp hr with rfl | hr2
        · exact absurd hkey hak
        · have : k ∉ a.key :: seen := by
            intro hc
            rcases List.mem_cons.mp hc with h1 | h2
            · exact hak h1.symm
            · exact hk h2
          rw [ih _ k this ⟨r, hr2, hkey⟩]

/-- The first element with a given (unseen) key is the same before and after
deduplication. -/
theorem find_eq (rows : List Row) :
    ∀ seen k, k ∉ seen →
      (removeDuplicatesAux seen rows).find? (fun r => decide (r.key = k)) =
        rows.find? (fun r => decide (r.key = k)) := by
  induction rows with
  | nil => intro seen k _; rfl
  | cons a rs ih =>
    intro seen k hk
    simp only [removeDuplicatesAux]
    split
    · rename_i hseen
      have hak : a.key ≠ k := fun h => hk (h ▸ hseen)
      rw [ih seen k hk,
        List.find?_cons_of_neg _ (by simpa using hak)]
    · by_cases hak : a.key = k
      · rw [List.find?_cons_of_pos _ (by simpa using hak),
          List.find?_cons_of_pos _ (by simpa using hak)]
      · have hk2 : k ∉ a.key :: seen := by
          intro hc
          rcases List.mem_cons.mp hc with h1 | h2
          · exact hak h1.symm
          · exact hk h2
        rw [List.find?_cons_of_neg _ (by simpa using hak),
          List.find?_cons_of_neg _ (by simpa using hak)]
        exact ih _ k hk2

end Dedup

end Wellavy

namespace Wellavy

/-- C6: in every list of extracted result tuples, the order-preserving
deduplication keyed on `(lowercased marker name, value string)` keeps only
the first occurrence of each key (the first element carrying a key is
unchanged), leaves the relative order of kept elements unchanged (the output
is a sublist of the input), yields exactly one occurrence of every key
present in the input — in particular after injecting an exact, possibly
case-differing, duplicate — and applying it twice equals applying it once. -/
theorem C6_dedup_first_occurrence_order_idem (rows : List Row) :
    (BaseExtractor.remove_duplicates_preserve_order rows).Sublist rows ∧
    BaseExtractor.remove_duplicates_preserve_order
        (BaseExtractor.remove_duplicates_preserve_order rows) =
      BaseExtractor.remove_duplicates_preserve_order rows ∧
    (∀ k, (∃ r ∈ rows, r.key = k) →
      countKey k (BaseExtractor.remove_duplicates_preserve_order rows) = 1) ∧
    (∀ k, (BaseExtractor.remove_duplicates_preserve_order rows).find?
        (fun r => decide (r.key = k)) =
      rows.find? (fun r => decide (r.key = k))) := by
  refine ⟨removeDuplicatesAux_sublist rows [], ?_, ?_, ?_⟩
  · exact removeDuplicatesAux_eq_self _ []
      (fun r _ => List.not_mem_nil _) (keys_nodup rows [])
  · intro k hex
    exact countKey_one rows [] k (List.not_mem_nil _) hex
  · intro k
    exact find_eq rows [] k (List.not_mem_nil _)

/-- Witness for C6: a result list with an injected case-insensitive duplicate
of the Glucose entry keeps exactly one occurrence. -/
theorem C6_witness :
    countKey ("glucose", "95")
        (BaseExtractor.remove_duplicates_preserve_order
          [Row.pair "Glucose" "95", Row.pair "Ferritin" "120",
           Row.pair "GLUCOSE" "95"]) = 1 :=
  (C6_dedup_first_occurrence_order_idem
      [Row.pair "Glucose" "95", Row.pair "Ferritin" "120",
       Row.pair "GLUCOSE" "95"]).2.2.1 ("glucose", "95")
    ⟨Row.pair "Glucose" "95", by decide, by decide⟩

/-- C5 counterexample: `"<5-10"` is a dash input whose two split parts are
not both numeric (`float("<5")` fails), yet the parser returns the bound
`(None, "5")` from the later `<`-prefix branch instead of failing closed
with `(None, None)`. -/
theorem C5_counterexample :
    Py.isIn "-" "<5-10" = true ∧
    Py.splitSep "<5-10" '-' = ["<5", "10"] ∧
    Py.float "<5" = none ∧
    BaseExtractor._parse_range "<5-10" = (none, some "5") := by
  decide

/-- C5 amended: the six supported notations parse to the stated bounds, and
a dash/tilde input whose parts are not both numeric fails closed to
`(None, None)` unless its stripped form begins with a comparison-operator
character (`<`, `>`, `≤`, `≥`), in which case the comparison branches may
still fire. -/
theorem C5_parse_range_amended :
    (BaseExtractor._parse_range "10-50" = (some "10", some "50") ∧
     BaseExtractor._parse_range "10~50" = (some "10", some "50") ∧
     BaseExtractor._parse_range "<100" = (none, some "100") ∧
     BaseExtractor._parse_range "<=100" = (none, some "100") ∧
     BaseExtractor._parse_range ">40" = (some "40", none) ∧
     BaseExtractor._parse_range ">=40" = (some "40", none)) ∧
    ∀ s : String,
      BaseExtractor.parseRangeDash (Py.strip s) = none →
      BaseExtractor.parseRangeTilde (Py.strip s) = none →
      BaseExtractor.startsWithCmp (Py.strip s) = false →
      BaseExtractor._parse_range s = (none, none) := by
  refine ⟨by decide, ?_⟩
  intro s hdash htilde hcmp
  unfold BaseExtractor._parse_range
  split
  · rfl
  · simp only [hdash, htilde]
    cases hd : (Py.strip s).data with
    | nil =>
      simp [BaseExtractor.ltBound, BaseExtractor.gtBound, BaseExtractor.leBound,
        BaseExtractor.geBound, Py.startswith, hd]
    | cons c r =>
      unfold BaseExtractor.startsWithCmp at hcmp
      rw [hd] at hcmp
      have hc1 : ¬c = '<' := by intro h; rw [h] at hcmp; simp at hcmp
      have hc2 : ¬c = '>' := by intro h; rw [h] at hcmp; simp at hcmp
      have hc3 : ¬c = '≤' := by intro h; rw [h] at hcmp; simp at hcmp
      have hc4 : ¬c = '≥' := by intro h; rw [h] at hcmp; simp at hcmp
      have hd1 : '<' ≠ c := fun h => hc1 h.symm
      have hd2 : '>' ≠ c := fun h => hc2 h.symm
      simp [BaseExtractor.ltBound, BaseExtractor.gtBound, BaseExtractor.leBound,
        BaseExtractor.geBound, Py.startswith, hd, List.isPrefixOf, hc1, hc2, hc3, hc4,
        hd1, hd2]

/-- Witness for C5's fail-closed branch: the non-numeric dash input `"a-b"`
yields no bounds. -/
theorem C5_witness :
    BaseExtractor.parseRangeDash (Py.strip "a-b") = none ∧
    BaseExtractor._parse_range "a-b" = (none, none) :=
  ⟨by decide,
   C5_parse_range_amended.2 "a-b" (by decide) (by decide) (by decide)⟩

/-- C7: fragmented-format classification is structural and strict: at most
one hundred non-blank lines is never fragmented; above one hundred lines the
document is fragmented exactly when the single-word-line ratio strictly
exceeds the threshold — a ratio equal to the threshold is not fragmented. -/
theorem C7_fragmentation_strict_threshold (threshold : ℚ) (text : String) :
    ((FormatDetector.nonBlankLines text).length ≤ 100 →
      FormatDetector._is_fragmented threshold text = false) ∧
    (100 < (FormatDetector.nonBlankLines text).length →
      mkRat (FormatDetector.singleWordAlphaCount (FormatDetector.nonBlankLines text))
          (FormatDetector.nonBlankLines text).length ≤ threshold →
      FormatDetector._is_fragmented threshold text = false) ∧
    (100 < (FormatDetector.nonBlankLines text).length →
      threshold < mkRat (FormatDetector.singleWordAlphaCount (FormatDetector.nonBlankLines text))
          (FormatDetector.nonBlankLines text).length →
      FormatDetector._is_fragmented threshold text = true) := by
  unfold FormatDetector._is_fragmented
  refine ⟨fun h => ?_, fun h hle => ?_, fun h hlt => ?_⟩
  · rw [if_pos h]
  · rw [if_neg (by omega)]
    exact decide_eq_false (not_lt.mpr hle)
  · rw [if_neg (by omega)]
    exact decide_eq_true hlt

set_option maxRecDepth 10000 in
/-- Witness for C7 at the spec's boundary scenario: 110 non-blank lines with
exactly 33 single-word lines (ratio exactly 0.3) is not fragmented; with 34
(one more) it is. -/
theorem C7_witness :
    FormatDetector._is_fragmented (mkRat 3 10) fragBoundaryDoc = false ∧
    FormatDetector._is_fragmented (mkRat 3 10) fragCrossedDoc = true :=
  ⟨(C7_fragmentation_strict_threshold (mkRat 3 10) fragBoundaryDoc).2.1
      (by decide) (by decide),
   (C7_fragmentation_strict_threshold (mkRat 3 10) fragCrossedDoc).2.2
      (by decide) (by decide)⟩

end Wellavy

namespace Wellavy

/-- C8: for markers absent from the validation table, `validate_value`
enforces the universal fallback — false for parsed values at most zero, false
above ten thousand, false for non-numeric strings, while `"5"` passes and
`"50000"` fails; for configured markers (case-insensitive lookup) it is true
exactly when the parsed value lies within the configured inclusive bounds. -/
theorem C8_validator_bounds (vmap : List (String × ℚ × ℚ)) (name value : String) :
    (Py.float value = none →
      ValueValidator.validate_value vmap name value = false) ∧
    (ValueValidator.lookupBounds vmap name = none →
      (∀ v : ℚ, Py.float value = some v → v ≤ 0 →
        ValueValidator.validate_value vmap name value = false) ∧
      (∀ v : ℚ, Py.float value = some v → 10000 < v →
        ValueValidator.validate_value vmap name value = false) ∧
      ValueValidator.validate_value vmap name "5" = true ∧
      ValueValidator.validate_value vmap name "50000" = false) ∧
    (∀ mn mx : ℚ, ValueValidator.lookupBounds vmap name = some (mn, mx) →
      (ValueValidator.validate_value vmap name value = true ↔
        ∃ v : ℚ, Py.float value = some v ∧ mn ≤ v ∧ v ≤ mx)) := by
  unfold ValueValidator.validate_value
  refine ⟨fun hf => ?_, fun hl => ⟨?_, ?_, ?_, ?_⟩, fun mn mx hl => ?_⟩
  · rw [hf]
  · intro v hv hle
    rw [hv, hl]
    have h0 : (0 : ℚ) < mkRat 1 1000 := by decide
    have : ¬(mkRat 1 1000 ≤ v) := by intro hc; linarith
    simp [this]
  · intro v hv hgt
    rw [hv, hl]
    have : ¬(v ≤ 10000) := not_le.mpr hgt
    simp [this]
  · rw [show Py.float "5" = some (mkRat 5 1) from by decide, hl]
    decide
  · rw [show Py.float "50000" = some (mkRat 50000 1) from by decide, hl]
    decide
  · cases hf : Py.float value with
    | none => simp
    | some v =>
      rw [hl]
      simp

/-- Witness for C8: an empty table (unknown marker) with values `"5"` and
`"50000"`, and an example configured table for bounded lookups. -/
theorem C8_witness :
    ValueValidator.validate_value [] "Ferritin" "5" = true ∧
    ValueValidator.validate_value [] "Ferritin" "50000" = false ∧
    ValueValidator.validate_value exampleValidationMap "Glucose" "70" = true ∧
    ValueValidator.validate_value exampleValidationMap "Glucose" "999999" = false := by
  refine ⟨?_, ?_, ?_, ?_⟩
  · exact ((C8_validator_bounds [] "Ferritin" "5").2.1 (by decide)).2.2.1
  · exact ((C8_validator_bounds [] "Ferritin" "50000").2.1 (by decide)).2.2.2
  · exact ((C8_validator_bounds exampleValidationMap "Glucose" "70").2.2
        65 99 (by decide)).mpr ⟨mkRat 70 1, by decide, by decide, by decide⟩
  · have h := (C8_validator_bounds exampleValidationMap "Glucose" "999999").2.2
      65 99 (by decide)
    by_cases hb :
        ValueValidator.validate_value exampleValidationMap "Glucose" "999999" = true
    · rcases h.mp hb with ⟨v, hv, _, hle⟩
      rw [show Py.float "999999" = some (mkRat 999999 1) from by decide] at hv
      cases hv
      exact absurd hle (by decide)
    · rw [← Bool.not_eq_true]
      exact hb

/-- C3 counterexample: for status `"Above Range"` the code returns the value
as the inferred upper bound with an empty lower bound — the opposite of the
claimed known lower bound equal to the value with no upper bound (and dually
for `"Below Range"`). -/
theorem C3_counterexample :
    FunctionHealthExtractor._infer_range_from_status "Above Range" "14.3" =
      ("", "14.3") ∧
    ¬FunctionHealthExtractor._infer_range_from_status "Above Range" "14.3" =
      ("14.3", "") ∧
    FunctionHealthExtractor._infer_range_from_status "Below Range" "14.3" =
      ("14.3", "") := by
  decide

/-- C3 amended: the status-based range inference maps `"In Range"` to two
empty bounds, `"Above Range"` to an empty min and max equal to the value,
and `"Below Range"` to min equal to the value and an empty max; on the
two-line pair `"Hemoglobin"` / `"In Range 14.3 g/dL"` with ranges enabled,
extraction yields `("Hemoglobin", "14.3")` with both inferred bounds
empty. -/
theorem C3_infer_range_amended (v : String)
    (h : FunctionHealthExtractor.FHHooks) :
    FunctionHealthExtractor._infer_range_from_status "In Range" v = ("", "") ∧
    FunctionHealthExtractor._infer_range_from_status "Above Range" v = ("", v) ∧
    FunctionHealthExtractor._infer_range_from_status "Below Range" v = (v, "") ∧
    FunctionHealthExtractor.extract h "Hemoglobin\nIn Range 14.3 g/dL" true =
      ([Row.quad "Hemoglobin" "14.3" (some "") (some "")], []) :=
  ⟨rfl, rfl, rfl, rfl⟩

/-- C10: the Function Health extractor emits the qualitative token
`"Negative"` as a value (from the two-line pair `"Urine Culture"` /
`"In Range Negative"`): its own validity check accepts qualitative values,
whereas the shared `ValueValidator.validate_value` — which it never invokes —
rejects that value under every validation table, since it does not parse as
a number. -/
theorem C10_extract_qualitative_value (h : FunctionHealthExtractor.FHHooks)
    (vmap : List (String × ℚ × ℚ)) :
    FunctionHealthExtractor.extract h "Urine Culture\nIn Range Negative" false =
      ([Row.pair "Urine Culture" "Negative"], []) ∧
    FunctionHealthExtractor._is_valid_function_health_extraction
      "Urine Culture" "Negative" = true ∧
    Py.float "Negative" = none ∧
    ValueValidator.validate_value vmap "Urine Culture" "Negative" = false :=
  ⟨rfl, by decide, by decide, rfl⟩

/-- C4 counterexample: the Quest Analyte/Value extractor returns every
validated marker in the first (default) list — here a marker matching no
default-catalog pattern — with the other list empty, so the default list is
not restricted to default-catalog matches. -/
theorem C4_counterexample :
    QuestAnalyteValueExtractor.extract questUnknownMarkerDoc false =
      ([Row.pair "ZZZUNKNOWNMARKER" "42"], []) ∧
    PatternMatcher.match_default_marker_model "ZZZUNKNOWNMARKER" = none := by
  decide

/-- C4 amended: the shared `_categorize_marker` helper does maintain the
claimed partition — a marker is appended to the default list exactly when the
default catalog matches it, and lands in the other list (or is dropped)
otherwise; but `QuestAnalyteValueExtractor.extract` bypasses categorization
entirely, returning all validated markers in the first list and an always
empty other list. -/
theorem C4_categorization_amended :
    (∀ (match_default match_other : String → Option String)
        (clean : String → String) (marker value : String)
        (mn mx : Option String) (dr orr : List Row),
      match_default marker = none →
      (BaseExtractor._categorize_marker match_default match_other clean
          marker value mn mx dr orr).1 = dr) ∧
    (∀ (match_default match_other : String → Option String)
        (clean : String → String) (marker value : String)
        (mn mx : Option String) (dr orr : List Row) (n : String),
      match_default marker = some n →
      BaseExtractor._categorize_marker match_default match_other clean
          marker value mn mx dr orr =
        (dr ++ [BaseExtractor.mkResultRow n value mn mx], orr)) ∧
    (∀ text include_ranges,
      (QuestAnalyteValueExtractor.extract text include_ranges).2 = []) := by
  refine ⟨?_, ?_, fun text include_ranges => rfl⟩
  · intro md mo clean marker value mn mx dr orr hmd
    unfold BaseExtractor._categorize_marker
    rw [hmd]
    cases mo marker with
    | some o => rfl
    | none =>
      dsimp only
      split <;> rfl
  · intro md mo clean marker value mn mx dr orr n hmd
    unfold BaseExtractor._categorize_marker
    rw [hmd]

/-- Witness for C4's amended statement at the modelled default catalog: an
uncatalogued marker adds nothing to the default list, while `"Glucose"` is
filed under default. -/
theorem C4_witness :
    (BaseExtractor._categorize_marker PatternMatcher.match_default_marker_model
        (fun _ => none) TextProcessor.clean_marker_name
        "ZZZUNKNOWNMARKER" "42" none none [] []).1 = [] ∧
    BaseExtractor._categorize_marker PatternMatcher.match_default_marker_model
        (fun _ => none) TextProcessor.clean_marker_name
        "Glucose" "95" none none [] [] =
      ([BaseExtractor.mkResultRow "Glucose" "95" none none], []) :=
  ⟨C4_categorization_amended.1 PatternMatcher.match_default_marker_model
      (fun _ => none) TextProcessor.clean_marker_name
      "ZZZUNKNOWNMARKER" "42" none none [] [] (by decide),
   C4_categorization_amended.2.1 PatternMatcher.match_default_marker_model
      (fun _ => none) TextProcessor.clean_marker_name
      "Glucose" "95" none none [] [] "Glucose" (by decide)⟩

/-- C9: CSV serialization concatenates the default and other lists in that
order preserving each list's internal order; with ranges disabled the header
is `Marker,<date>` followed by the rows, and with ranges enabled the header
is `Marker,MinRange,MaxRange,<date>` with absent bounds rendered as empty
strings (rows end with the writer's CRLF terminator). -/
theorem C9_csv_serialization (dd od : List Row) (date : String)
    (include_ranges : Bool) :
    generate_csv_content [Row.pair "Glucose" "95"] [Row.pair "Ferritin" "120"]
        "2025-07-01" false =
      "Marker,2025-07-01\r\nGlucose,95\r\nFerritin,120\r\n" ∧
    generate_csv_content [Row.quad "Glucose" "95" (some "70") none]
        [Row.quad "Ferritin" "120" none none] "2025-07-01" true =
      "Marker,MinRange,MaxRange,2025-07-01\r\nGlucose,70,,95\r\nFerritin,,,120\r\n" ∧
    generate_csv_content dd od date include_ranges =
      generate_csv_content (dd ++ od) [] date include_ranges := by
  refine ⟨by decide, by decide, ?_⟩
  simp only [generate_csv_content, List.append_nil]

end Wellavy

namespace Wellavy

open FormatDetector in
/-- C1: on a document matching no format-detection predicate, `detect_format`
returns the explicit unsupported signal `None`; but the caller
`extract_blood_test_data` then evaluates `detected_format.value` for its log
message, raising `AttributeError`, which its `except` clause re-raises — the
pipeline terminates with an exception instead of returning an empty result
pair.  Quantified over the abstracted regex searches, the extractor dispatch,
the fragmentation threshold and the ranges flag. -/
theorem C1_unsupported_format_crashes (h : RegexHooks) (threshold : ℚ)
    (run : ExtractorFactory.ExtractorKind → String → Bool → List Row × List Row)
    (include_ranges : Bool) :
    FormatDetector.detect_format h threshold unsupportedDoc = none ∧
    BloodTestExtractor.extract_blood_test_data h threshold run
        unsupportedDoc include_ranges = Except.error attributeErrorMsg := by
  have e1 : _is_elation_labcorp h unsupportedDoc = false := by
    have hc : ([" 01", " 02", " 03", " 04"].any
        (fun code => Py.isIn code unsupportedDoc)) = false := by decide
    unfold _is_elation_labcorp
    simp [hc]
  have e2 : _is_quest_tabular h unsupportedDoc = false := by
    have hq : Py.isIn "quest diagnostics" (Py.lower unsupportedDoc) = false := by
      decide
    have hq2 : Py.isIn "questdiagnostics" (Py.lower unsupportedDoc) = false := by
      decide
    unfold _is_quest_tabular
    simp [hq, hq2]
  have e3 : _is_quest_analyte_value h unsupportedDoc = false := by
    have ha : Py.isIn "analyte" (Py.lower unsupportedDoc) = false := by decide
    unfold _is_quest_analyte_value
    simp [ha]
  have e4 : _is_function_health h unsupportedDoc = false := by
    have hd : Py.isIn "function dashboard" (Py.lower unsupportedDoc) = false := by
      decide
    have hu : Py.isIn "my.functionhealth.com" (Py.lower unsupportedDoc) = false := by
      decide
    unfold _is_function_health
    simp [hd, hu]
  have e5 : _is_fragmented threshold unsupportedDoc = false := by
    unfold _is_fragmented
    rw [if_pos (by decide)]
  have hdet : FormatDetector.detect_format h threshold unsupportedDoc = none := by
    unfold FormatDetector.detect_format
    rw [e1, e2, e3, e4, e5]
    decide
  refine ⟨hdet, ?_⟩
  unfold BloodTestExtractor.extract_blood_test_data
  rw [hdet]

open FormatDetector in
/-- C2: `detect_format` can return `FUNCTION_HEALTH` (here on a minimal
Function Health dashboard document), yet `create_extractor` raises
`ValueError` for it — and likewise for the detectable formats
`ELATION_LABCORP`, `QUEST_TABULAR` and `BOSTON_HEART` — because the factory
registry only contains the six formats `LABCORP_NMR`, `LABCORP_STANDARD`,
`QUEST_ANALYTE_VALUE`, `CLEVELAND_HEARTLAB`, `FRAGMENTED` and `STANDARD`. -/
theorem C2_factory_rejects_detected_formats (h : RegexHooks) (threshold : ℚ) :
    FormatDetector.detect_format h threshold functionHealthDoc =
      some ReportFormat.FUNCTION_HEALTH ∧
    ExtractorFactory.create_extractor ReportFormat.FUNCTION_HEALTH =
      Except.error "ValueError: Unsupported format: ReportFormat.FUNCTION_HEALTH" ∧
    ExtractorFactory.create_extractor ReportFormat.ELATION_LABCORP =
      Except.error "ValueError: Unsupported format: ReportFormat.ELATION_LABCORP" ∧
    ExtractorFactory.create_extractor ReportFormat.QUEST_TABULAR =
      Except.error "ValueError: Unsupported format: ReportFormat.QUEST_TABULAR" ∧
    ExtractorFactory.create_extractor ReportFormat.BOSTON_HEART =
      Except.error "ValueError: Unsupported format: ReportFormat.BOSTON_HEART" := by
  refine ⟨?_, rfl, rfl, rfl, rfl⟩
  have e1 : _is_elation_labcorp h functionHealthDoc = false := by
    have hc : ([" 01", " 02", " 03", " 04"].any
        (fun code => Py.isIn code functionHealthDoc)) = false := by decide
    unfold _is_elation_labcorp
    simp [hc]
  have e2 : _is_quest_tabular h functionHealthDoc = false := by
    have hq : Py.isIn "quest diagnostics" (Py.lower functionHealthDoc) = false := by
      decide
    have hq2 : Py.isIn "questdiagnostics" (Py.lower functionHealthDoc) = false := by
      decide
    unfold _is_quest_tabular
    simp [hq, hq2]
  have e3 : _is_quest_analyte_value h functionHealthDoc = false := by
    have ha : Py.isIn "analyte" (Py.lower functionHealthDoc) = false := by decide
    unfold _is_quest_analyte_value
    simp [ha]
  have e4 : _is_function_health h functionHealthDoc = true := rfl
  have e5 : _is_fragmented threshold functionHealthDoc = false := by
    unfold _is_fragmented
    rw [if_pos (by decide)]
  unfold FormatDetector.detect_format
  rw [e1, e2, e3, e4, e5]
  decide

end Wellavy
